import Mathlib

/-!
Verification of the CWA weather proxy backend (`src/server.js`).

The server is a single-endpoint Express proxy: it resolves a lowercase city
slug to a localized (Chinese) city name through a static table, issues one
GET request to the CWA upstream API, and flattens the upstream's nested
per-element time series into a flat list of per-time-slot forecast records.

The embedding below translates the request-handling code of `server.js`
into pure Lean functions.  The upstream call itself is replaced by an
explicit `UpstreamResult` parameter describing the outcome of the single
axios GET (success with a parsed JSON body, an HTTP error response, or a
transport failure), mirroring axios's behaviour: a non-2xx status rejects
with `error.response` set, a transport failure rejects with no `response`.
JavaScript property accesses that can throw `TypeError` (reading a property
of `undefined`) are modelled with `Except String`, which the enclosing
`try/catch` of `getWeatherByCity` catches.
-/

/-- A `parameter` object of one upstream time entry: `parameterName` plus an
optional `parameterUnit` (absent keys are `none`). -/
structure Parameter where
  parameterName : String
  parameterUnit : Option String
deriving DecidableEq, Repr

/-- One entry of a weather element's `time` array. -/
structure TimeEntry where
  startTime : String
  endTime : String
  parameter : Parameter
deriving DecidableEq, Repr

/-- One `weatherElement` entry: an element code (`Wx`, `PoP`, ...) and its
time-aligned series. -/
structure WeatherElement where
  elementName : String
  time : List TimeEntry
deriving DecidableEq, Repr

/-- One record of the upstream's `records.location` array. -/
structure LocationData where
  locationName : String
  weatherElement : List WeatherElement
deriving DecidableEq, Repr

/-- The `records` object of an upstream 2xx body.  The `location` key may be
absent (`none`), distinct from being present but empty (`some []`). -/
structure Records where
  datasetDescription : String
  location : Option (List LocationData)
deriving DecidableEq, Repr

/-- A parsed upstream 2xx JSON body; the `records` key itself may be absent. -/
structure UpstreamBody where
  records : Option Records
deriving DecidableEq, Repr

/-- The JSON body attached to an upstream non-2xx response
(`error.response.data`): an optional `message` field plus the rest of the
payload, kept opaque, so that forwarding the body verbatim is observable. -/
structure ErrorData where
  message : Option String
  rest : String
deriving DecidableEq, Repr

/-- Outcome of the single axios GET to the CWA API. -/
inductive UpstreamResult where
  | ok (body : UpstreamBody)
  | httpError (status : Nat) (data : ErrorData)
  | transportError (errMessage : String)
deriving DecidableEq, Repr

/-- One normalized forecast slot (the object pushed onto
`weatherData.forecasts`). -/
structure Forecast where
  startTime : String
  endTime : String
  weather : String
  rain : String
  minTemp : String
  maxTemp : String
  comfort : String
  windSpeed : String
deriving DecidableEq, Repr

/-- The `weatherData` success payload. -/
structure WeatherData where
  city : String
  updateTime : String
  forecasts : List Forecast
deriving DecidableEq, Repr

/-- The JSON body of a proxy response, one constructor per shape produced by
`server.js`: the success body, the `{error, message}` bodies, the
`{error, message, details}` body of the upstream-HTTP-error branch, and the
`{success: false, error, message}` body of the invalid-slug branch. -/
inductive ResponseBody where
  | success (data : WeatherData)
  | err (error : String) (message : String)
  | errDetails (error : String) (message : String) (details : ErrorData)
  | errInvalid (error : String) (message : String)
deriving DecidableEq, Repr

/-- An HTTP response sent through `res`: status code plus JSON body. -/
structure Response where
  status : Nat
  body : ResponseBody
deriving DecidableEq, Repr

/-- `CWA_CITY_MAP` (server.js lines 14-23): static slug-to-localized-name
table.  JavaScript object indexing `CWA_CITY_MAP[slug]` yields `undefined`
on a miss, modelled as `none`. -/
def CWA_CITY_MAP : String → Option String
  | "taipei" => some "臺北市"
  | "newtaipei" => some "新北市"
  | "taoyuan" => some "桃園市"
  | "taichung" => some "臺中市"
  | "tainan" => some "臺南市"
  | "kaohsiung" => some "高雄市"
  | "keelung" => some "基隆市"
  | "hsinchu" => some "新竹市"
  | "hsinchucounty" => some "新竹縣"
  | "miaoli" => some "苗栗縣"
  | "changhua" => some "彰化縣"
  | "nantou" => some "南投縣"
  | "yunlin" => some "雲林縣"
  | "chiayi" => some "嘉義市"
  | "chiayicounty" => some "嘉義縣"
  | "pingtung" => some "屏東縣"
  | "yilan" => some "宜蘭縣"
  | "hualien" => some "花蓮縣"
  | "taitung" => some "臺東縣"
  | "penghu" => some "澎湖縣"
  | "kinmen" => some "金門縣"
  | "lianjiang" => some "連江縣"
  | _ => none

/-- JavaScript falsiness of `CWA_API_KEY` (`!CWA_API_KEY`, line 38): the env
variable is absent (`none`) or the empty string. -/
def keyMissing : Option String → Bool
  | none => true
  | some s => s = ""

/-- JavaScript `a || b` for `error.response.data.message || fallback`
(line 129): an absent or empty (falsy) `message` selects the fallback. -/
def jsOrElse (m : Option String) (fallback : String) : String :=
  match m with
  | none => fallback
  | some s => if s = "" then fallback else s

/-- The body of the `switch (element.elementName)` (lines 89-113): reads
`element.time[i].parameter` — throwing a `TypeError` when `time[i]` is out
of range, before the switch dispatches — and updates the one forecast field
selected by the element code, leaving unknown codes untouched. -/
def applyElement (f : Forecast) (element : WeatherElement) (i : Nat) :
    Except String Forecast :=
  match element.time.get? i with
  | none => .error "TypeError: cannot read parameter of undefined"
  | some entry =>
    let value := entry.parameter
    match element.elementName with
    | "Wx" => .ok { f with weather := value.parameterName }
    | "PoP" => .ok { f with rain := value.parameterName ++
        (if value.parameterUnit = some "百分比" then "%" else "") }
    | "MinT" => .ok { f with minTemp := value.parameterName ++
        (if value.parameterUnit = some "C" then "°" else "") }
    | "MaxT" => .ok { f with maxTemp := value.parameterName ++
        (if value.parameterUnit = some "C" then "°" else "") }
    | "CI" => .ok { f with comfort := value.parameterName }
    | "WS" => .ok { f with windSpeed := value.parameterName }
    | _ => .ok f

/-- `weatherElements.forEach(...)` (lines 89-113): applies `applyElement`
for each element in upstream array order, threading the forecast object. -/
def applyElements (elements : List WeatherElement) (i : Nat) (f : Forecast) :
    Except String Forecast :=
  match elements with
  | [] => .ok f
  | el :: rest => do
    let f' ← applyElement f el i
    applyElements rest i f'

/-- Body of one iteration of the `for` loop (lines 77-116): initializes the
slot from `weatherElements[0].time[i]` with the six fields empty, then runs
the `forEach` over all elements. -/
def buildSlot (elements : List WeatherElement) (first : WeatherElement)
    (i : Nat) : Except String Forecast :=
  match first.time.get? i with
  | none => .error "TypeError: cannot read startTime of undefined"
  | some e0 =>
    applyElements elements i
      { startTime := e0.startTime, endTime := e0.endTime,
        weather := "", rain := "", minTemp := "", maxTemp := "",
        comfort := "", windSpeed := "" }

/-- The `for (let i = 0; i < timeCount; i++)` loop, pushing each slot in
index order. -/
def forecastLoop (elements : List WeatherElement) (first : WeatherElement) :
    List Nat → Except String (List Forecast)
  | [] => .ok []
  | i :: rest => do
    let f ← buildSlot elements first i
    let fs ← forecastLoop elements first rest
    pure (f :: fs)

/-- Lines 68-116: builds `weatherData` from the selected location record.
`weatherElements[0]` on an empty element list throws (reading `.time` of
`undefined`); `timeCount` is the first element's time-array length. -/
def normalizeLocation (loc : LocationData) (desc : String) :
    Except String WeatherData :=
  match loc.weatherElement.head? with
  | none => .error "TypeError: cannot read time of undefined"
  | some first => do
    let forecasts ← forecastLoop loc.weatherElement first
      (List.range first.time.length)
    pure { city := loc.locationName, updateTime := desc,
           forecasts := forecasts }

/-- The `try` block after a 2xx upstream reply (lines 56-121):
`response.data.records.location[0]` throws a `TypeError` when `records` or
`records.location` is absent; an empty `location` array yields `undefined`
and the 404 branch; otherwise the normalizer runs (and may itself throw). -/
def tryBody (cityName : String) (body : UpstreamBody) :
    Except String Response :=
  match body.records with
  | none => .error "TypeError: cannot read location of undefined"
  | some recs =>
    match recs.location with
    | none => .error "TypeError: cannot read 0 of undefined"
    | some locs =>
      match locs.head? with
      | none => .ok
          { status := 404,
            body := .err "查無資料"
              ("無法取得 " ++ cityName ++ " 天氣資料，請確認城市名稱是否正確") }
      | some locationData => do
        let wd ← normalizeLocation locationData recs.datasetDescription
        pure { status := 200, body := .success wd }

/-- `getWeatherByCity` (lines 35-139).  The API key check precedes the
upstream call; the `catch` block distinguishes an upstream HTTP error
(`error.response` present: mirror its status, `message` via JS `||`,
`details` = the raw error body) from every other thrown error (transport
failure or a `TypeError` from the `try` block), which yields the fixed
generic 500. -/
def getWeatherByCity (apiKey : Option String) (cityName : String)
    (upstream : UpstreamResult) : Response :=
  if keyMissing apiKey then
    { status := 500,
      body := .err "伺服器設定錯誤" "請在 .env 檔案中設定 CWA_API_KEY" }
  else
    match upstream with
    | .httpError status data =>
      { status := status,
        body := .errDetails "CWA API 錯誤"
          (jsOrElse data.message ("無法取得 " ++ cityName ++ " 天氣資料"))
          data }
    | .transportError _ =>
      { status := 500,
        body := .err "伺服器錯誤" "無法取得天氣資料，請稍後再試" }
    | .ok body =>
      match tryBody cityName body with
      | .ok resp => resp
      | .error _ =>
        { status := 500,
          body := .err "伺服器錯誤" "無法取得天氣資料，請稍後再試" }

/-- `citySlug.toLowerCase()` (line 159).  The slugs and their table keys are
ASCII, so per-character ASCII lowercasing captures it; written as a
structural map over the character list. -/
def toLowerSlug (s : String) : String :=
  String.mk (s.data.map Char.toLower)

/-- The `/api/weather/:citySlug` route handler (lines 158-172): lowercases
the slug, looks it up in `CWA_CITY_MAP`, answers 404 on a miss (the message
interpolates the lowercased `citySlug` variable), otherwise delegates to
`getWeatherByCity`. -/
def handleWeatherRoute (apiKey : Option String) (citySlugRaw : String)
    (upstream : UpstreamResult) : Response :=
  let citySlug := toLowerSlug citySlugRaw
  match CWA_CITY_MAP citySlug with
  | none =>
    { status := 404,
      body := .errInvalid "無效的城市代碼"
        ("前端傳送的城市代碼 (" ++ citySlug ++ ") 無效，後端不支援") }
  | some cwaCityName => getWeatherByCity apiKey cwaCityName upstream

/-- The mock upstream body of the round-trip scenario: one location
`臺北市` with a single `Wx` element carrying one time slot. -/
def mockTaipeiSlot : TimeEntry :=
  { startTime := "2024-01-01T00:00:00+08:00",
    endTime := "2024-01-01T06:00:00+08:00",
    parameter := { parameterName := "多雲", parameterUnit := none } }

def mockTaipeiLocation : LocationData :=
  { locationName := "臺北市",
    weatherElement := [{ elementName := "Wx", time := [mockTaipeiSlot] }] }

def mockTaipeiBody : UpstreamBody :=
  { records := some
      { datasetDescription := "三十六小時天氣預報",
        location := some [mockTaipeiLocation] } }

/-- C1: end-to-end round trip.  Slug `"taipei"` resolves to `臺北市`; with
the mock upstream reply, the endpoint answers success with city `臺北市`
and exactly one forecast slot whose weather is `多雲` and whose remaining
five fields are the empty string. -/
theorem roundtrip_taipei :
    CWA_CITY_MAP "taipei" = some "臺北市" ∧
    handleWeatherRoute (some "test-key") "taipei" (.ok mockTaipeiBody) =
      { status := 200,
        body := .success
          { city := "臺北市",
            updateTime := "三十六小時天氣預報",
            forecasts :=
              [ { startTime := "2024-01-01T00:00:00+08:00",
                  endTime := "2024-01-01T06:00:00+08:00",
                  weather := "多雲", rain := "", minTemp := "",
                  maxTemp := "", comfort := "", windSpeed := "" } ] } } :=
  ⟨rfl, by decide⟩

/-- Reduction of `Except` bind on a success value. -/
theorem bindOk {α β : Type} (a : α) (k : α → Except String β) :
    (Except.ok a >>= k : Except String β) = k a := rfl

/-- If the element's time array covers index `i`, the switch body succeeds
and never touches the slot's time window. -/
theorem applyElement_ok (f : Forecast) (el : WeatherElement) (i : Nat)
    (h : i < el.time.length) :
    ∃ f', applyElement f el i = .ok f' ∧
      f'.startTime = f.startTime ∧ f'.endTime = f.endTime := by
  have h' : el.time.get? i = some (el.time.get ⟨i, h⟩) := List.get?_eq_get h
  simp only [applyElement, h']
  split <;> exact ⟨_, rfl, rfl, rfl⟩

/-- The `forEach` over all elements succeeds, preserving the time window,
when every element's time array covers index `i`. -/
theorem applyElements_ok (elements : List WeatherElement) (i : Nat)
    (f : Forecast) (h : ∀ el ∈ elements, i < el.time.length) :
    ∃ f', applyElements elements i f = .ok f' ∧
      f'.startTime = f.startTime ∧ f'.endTime = f.endTime := by
  induction elements generalizing f with
  | nil => exact ⟨f, rfl, rfl, rfl⟩
  | cons el rest ih =>
    obtain ⟨g, hg, hs, he⟩ := applyElement_ok f el i (h el (by simp))
    obtain ⟨f', hf', hs', he'⟩ := ih g (fun e hin => h e (by simp [hin]))
    exact ⟨f', by simp only [applyElements, hg, bindOk, hf'], by rw [hs', hs],
      by rw [he', he]⟩

/-- One loop iteration builds a slot whose time window comes from the first
element's `i`-th time entry. -/
theorem buildSlot_ok (elements : List WeatherElement)
    (first : WeatherElement) (i : Nat) (hi : i < first.time.length)
    (h : ∀ el ∈ elements, i < el.time.length) :
    ∃ f', buildSlot elements first i = .ok f' ∧
      f'.startTime = (first.time.get ⟨i, hi⟩).startTime ∧
      f'.endTime = (first.time.get ⟨i, hi⟩).endTime := by
  obtain ⟨f', hf', hs, he⟩ := applyElements_ok elements i
    { startTime := (first.time.get ⟨i, hi⟩).startTime,
      endTime := (first.time.get ⟨i, hi⟩).endTime,
      weather := "", rain := "", minTemp := "", maxTemp := "",
      comfort := "", windSpeed := "" } h
  refine ⟨f', ?_, hs, he⟩
  unfold buildSlot
  rw [List.get?_eq_get hi]
  exact hf'

/-- The whole `for` loop succeeds on any list of in-range indices, yielding
one slot per index, whose time window comes from the first element's entry
at that index. -/
theorem forecastLoop_ok (elements : List WeatherElement)
    (first : WeatherElement) (idxs : List Nat)
    (hidx : ∀ i ∈ idxs, i < first.time.length)
    (hlen : ∀ el ∈ elements, first.time.length ≤ el.time.length) :
    ∃ fs, forecastLoop elements first idxs = .ok fs ∧
      fs.length = idxs.length ∧
      ∀ j i, idxs.get? j = some i →
        ∃ entry slot, first.time.get? i = some entry ∧
          fs.get? j = some slot ∧
          slot.startTime = entry.startTime ∧
          slot.endTime = entry.endTime := by
  induction idxs with
  | nil => exact ⟨[], rfl, rfl, by intro j i h; simp at h⟩
  | cons i rest ih =>
    have hi : i < first.time.length := hidx i (by simp)
    obtain ⟨slot, hslot, hs, he⟩ := buildSlot_ok elements first i hi
      (fun el hel => lt_of_lt_of_le hi (hlen el hel))
    obtain ⟨fs, hfs, hlenfs, hget⟩ := ih (fun j hj => hidx j (by simp [hj]))
    refine ⟨slot :: fs,
      by simp only [forecastLoop, hslot, bindOk, hfs]; rfl,
      by simp [hlenfs], ?_⟩
    intro j k hj
    match j with
    | 0 =>
      simp at hj
      subst hj
      exact ⟨first.time.get ⟨i, hi⟩, slot, List.get?_eq_get hi, rfl, hs, he⟩
    | j + 1 =>
      simp only [List.get?_cons_succ] at hj ⊢
      exact hget j k hj

/-- C2: normalizer invariant.  For a location record with a first weather
element (JavaScript reads `weatherElements[0].time` unconditionally, so the
claim's quantification presupposes one) whose elements all carry time
arrays at least as long as the first's, normalization succeeds, the number
of forecast slots equals the first element's time-array length (N slots for
N entries, including N = 0), and the slot at each index takes its
`startTime` and `endTime` from the first element's entry at that index. -/
theorem normalize_slot_invariant (loc : LocationData) (desc : String)
    (first : WeatherElement)
    (hfirst : loc.weatherElement.head? = some first)
    (hlen : ∀ el ∈ loc.weatherElement, first.time.length ≤ el.time.length) :
    ∃ wd, normalizeLocation loc desc = .ok wd ∧
      wd.forecasts.length = first.time.length ∧
      ∀ j, j < first.time.length →
        ∃ entry slot, first.time.get? j = some entry ∧
          wd.forecasts.get? j = some slot ∧
          slot.startTime = entry.startTime ∧
          slot.endTime = entry.endTime := by
  obtain ⟨fs, hfs, hlenfs, hget⟩ := forecastLoop_ok loc.weatherElement first
    (List.range first.time.length) (by simp) hlen
  refine ⟨{ city := loc.locationName, updateTime := desc, forecasts := fs },
    ?_, by simpa using hlenfs, ?_⟩
  · unfold normalizeLocation
    rw [hfirst]
    simp [hfs]
  · intro j hj
    refine hget j j ?_
    rw [List.get?_eq_getElem?]
    exact List.getElem?_range hj

/-- The first weather element of the round-trip mock location. -/
def mockFirstElement : WeatherElement :=
  { elementName := "Wx", time := [mockTaipeiSlot] }

/-- Witness for C2 at the concrete mock location. -/
theorem normalize_slot_invariant_witness :
    mockTaipeiLocation.weatherElement.head? = some mockFirstElement ∧
    (∀ el ∈ mockTaipeiLocation.weatherElement,
      mockFirstElement.time.length ≤ el.time.length) ∧
    ∃ wd, normalizeLocation mockTaipeiLocation "d" = .ok wd ∧
      wd.forecasts.length = mockFirstElement.time.length ∧
      ∀ j, j < mockFirstElement.time.length →
        ∃ entry slot, mockFirstElement.time.get? j = some entry ∧
          wd.forecasts.get? j = some slot ∧
          slot.startTime = entry.startTime ∧
          slot.endTime = entry.endTime :=
  ⟨rfl, by decide,
    normalize_slot_invariant mockTaipeiLocation "d" mockFirstElement rfl
      (by decide)⟩

/-- C3: unit-suffix rule.  Whenever the switch processes a `PoP` element,
the `rain` field becomes `parameterName ++ "%"` exactly when the declared
unit is the percent marker `百分比`, and `parameterName` unmodified for any
other unit; likewise `MinT`/`MaxT` append `°` to `minTemp`/`maxTemp`
exactly when the unit is the Celsius marker `C`. -/
theorem unit_suffix_rule (f f' : Forecast) (el : WeatherElement) (i : Nat)
    (entry : TimeEntry) (het : el.time.get? i = some entry)
    (happ : applyElement f el i = .ok f') :
    (el.elementName = "PoP" →
      (entry.parameter.parameterUnit = some "百分比" →
        f'.rain = entry.parameter.parameterName ++ "%") ∧
      (entry.parameter.parameterUnit ≠ some "百分比" →
        f'.rain = entry.parameter.parameterName)) ∧
    (el.elementName = "MinT" →
      (entry.parameter.parameterUnit = some "C" →
        f'.minTemp = entry.parameter.parameterName ++ "°") ∧
      (entry.parameter.parameterUnit ≠ some "C" →
        f'.minTemp = entry.parameter.parameterName)) ∧
    (el.elementName = "MaxT" →
      (entry.parameter.parameterUnit = some "C" →
        f'.maxTemp = entry.parameter.parameterName ++ "°") ∧
      (entry.parameter.parameterUnit ≠ some "C" →
        f'.maxTemp = entry.parameter.parameterName)) := by
  simp only [applyElement, het] at happ
  split at happ <;> simp only [Except.ok.injEq] at happ <;> subst happ <;>
    refine ⟨fun hn => ⟨fun hu => ?_, fun hu => ?_⟩,
            fun hn => ⟨fun hu => ?_, fun hu => ?_⟩,
            fun hn => ⟨fun hu => ?_, fun hu => ?_⟩⟩ <;>
    simp_all

/-- A `PoP` element with the percent unit, for the C3 witness. -/
def popEntry : TimeEntry :=
  { startTime := "s", endTime := "e",
    parameter := { parameterName := "30", parameterUnit := some "百分比" } }

def popElement : WeatherElement :=
  { elementName := "PoP", time := [popEntry] }

def emptySlot : Forecast :=
  { startTime := "s", endTime := "e", weather := "", rain := "",
    minTemp := "", maxTemp := "", comfort := "", windSpeed := "" }

def popSlot : Forecast :=
  { startTime := "s", endTime := "e", weather := "", rain := "30%",
    minTemp := "", maxTemp := "", comfort := "", windSpeed := "" }

/-- Witness for C3: a concrete `PoP` element with unit `百分比` yields
`rain = "30" ++ "%"`. -/
theorem unit_suffix_rule_witness :
    popElement.time.get? 0 = some popEntry ∧
    applyElement emptySlot popElement 0 = .ok popSlot ∧
    popSlot.rain = popEntry.parameter.parameterName ++ "%" :=
  ⟨rfl, rfl,
    ((unit_suffix_rule emptySlot popSlot popElement 0 popEntry rfl
      rfl).1 rfl).1 rfl⟩

/-- C4: for any slug whose lowercased form misses `CWA_CITY_MAP`, the
route answers 404 with the invalid-city error body, and the response is
independent of the upstream outcome (no upstream call can influence it);
resolution is exact-match lookup of the lowercased slug. -/
theorem unknown_slug_404 (slug : String) (key : Option String)
    (u u' : UpstreamResult)
    (h : CWA_CITY_MAP (toLowerSlug slug) = none) :
    (handleWeatherRoute key slug u).status = 404 ∧
    (∃ msg, (handleWeatherRoute key slug u).body =
      .errInvalid "無效的城市代碼" msg) ∧
    handleWeatherRoute key slug u = handleWeatherRoute key slug u' := by
  simp [handleWeatherRoute, h]

/-- Witness for C4 at the concrete slug `atlantis`. -/
theorem unknown_slug_404_witness :
    CWA_CITY_MAP (toLowerSlug "atlantis") = none ∧
    ((handleWeatherRoute none "atlantis" (.transportError "x")).status = 404 ∧
     (∃ msg, (handleWeatherRoute none "atlantis" (.transportError "x")).body =
       .errInvalid "無效的城市代碼" msg) ∧
     handleWeatherRoute none "atlantis" (.transportError "x") =
       handleWeatherRoute none "atlantis" (.ok mockTaipeiBody)) :=
  ⟨by decide,
    unknown_slug_404 "atlantis" none (.transportError "x")
      (.ok mockTaipeiBody) (by decide)⟩

/-- C5 counterexample: for the URL slug `Atlantis` (not in the table), the
404 message echoes the lowercased `atlantis`, which differs from the
message that would echo the original, unmodified slug. -/
theorem slug_echo_counterexample :
    (handleWeatherRoute (some "k") "Atlantis" (.transportError "x")).body =
      .errInvalid "無效的城市代碼"
        "前端傳送的城市代碼 (atlantis) 無效，後端不支援" ∧
    "前端傳送的城市代碼 (atlantis) 無效，後端不支援" ≠
      "前端傳送的城市代碼 (Atlantis) 無效，後端不支援" :=
  ⟨by decide, by decide⟩

/-- C5 amended: the 404 error body echoes the lowercased form of the slug
(the handler lowercases before building the message), not the original
as-supplied value. -/
theorem slug_echo_lowercased (slug : String) (key : Option String)
    (u : UpstreamResult) (h : CWA_CITY_MAP (toLowerSlug slug) = none) :
    (handleWeatherRoute key slug u).body =
      .errInvalid "無效的城市代碼"
        ("前端傳送的城市代碼 (" ++ toLowerSlug slug ++ ") 無效，後端不支援") := by
  simp only [handleWeatherRoute, h]

/-- Witness for the amended C5 at the concrete slug `Atlantis`. -/
theorem slug_echo_lowercased_witness :
    CWA_CITY_MAP (toLowerSlug "Atlantis") = none ∧
    (handleWeatherRoute (some "k") "Atlantis" (.transportError "x")).body =
      .errInvalid "無效的城市代碼"
        ("前端傳送的城市代碼 (" ++ toLowerSlug "Atlantis" ++ ") 無效，後端不支援") :=
  ⟨by decide,
    slug_echo_lowercased "Atlantis" (some "k") (.transportError "x")
      (by decide)⟩

/-- Reduction of `Except` bind on an error value. -/
theorem bindErr {α β : Type} (s : String) (k : α → Except String β) :
    (Except.error s >>= k : Except String β) = Except.error s := rfl

/-- C6 counterexample: a 2xx upstream body whose `records.location` key
path is absent (and likewise one with `records` itself absent) makes the
`try` block throw a `TypeError`, and the catch answers 500, not the claimed
404. -/
theorem location_absent_counterexample :
    (getWeatherByCity (some "k") "臺北市"
      (.ok { records := some { datasetDescription := "d",
                               location := none } })) =
      { status := 500,
        body := .err "伺服器錯誤" "無法取得天氣資料，請稍後再試" } ∧
    (getWeatherByCity (some "k") "臺北市" (.ok { records := none })) =
      { status := 500,
        body := .err "伺服器錯誤" "無法取得天氣資料，請稍後再試" } ∧
    (500 : Nat) ≠ 404 :=
  ⟨rfl, rfl, by decide⟩

/-- C6 amended: an upstream 2xx reply with an empty `records.location`
array yields 404 (the `LocationNotFound` body); when the `records.location`
key path is absent altogether, the property read throws and the catch-all
yields the generic 500 — in neither case a crash. -/
theorem location_empty_or_absent (key cityName desc : String)
    (hk : key ≠ "") :
    (getWeatherByCity (some key) cityName
        (.ok { records := some { datasetDescription := desc,
                                 location := some [] } })) =
      { status := 404,
        body := .err "查無資料"
          ("無法取得 " ++ cityName ++ " 天氣資料，請確認城市名稱是否正確") } ∧
    (getWeatherByCity (some key) cityName
        (.ok { records := some { datasetDescription := desc,
                                 location := none } })) =
      { status := 500,
        body := .err "伺服器錯誤" "無法取得天氣資料，請稍後再試" } ∧
    (getWeatherByCity (some key) cityName (.ok { records := none })) =
      { status := 500,
        body := .err "伺服器錯誤" "無法取得天氣資料，請稍後再試" } := by
  have hkm : keyMissing (some key) = false := by simp [keyMissing, hk]
  refine ⟨?_, ?_, ?_⟩ <;> simp [getWeatherByCity, hkm, tryBody]

/-- Witness for the amended C6 at concrete inputs. -/
theorem location_empty_or_absent_witness :
    ("k" : String) ≠ "" ∧
    (getWeatherByCity (some "k") "臺北市"
        (.ok { records := some { datasetDescription := "d",
                                 location := some [] } })) =
      { status := 404,
        body := .err "查無資料"
          ("無法取得 " ++ "臺北市" ++ " 天氣資料，請確認城市名稱是否正確") } ∧
    (getWeatherByCity (some "k") "臺北市"
        (.ok { records := some { datasetDescription := "d",
                                 location := none } })) =
      { status := 500,
        body := .err "伺服器錯誤" "無法取得天氣資料，請稍後再試" } ∧
    (getWeatherByCity (some "k") "臺北市" (.ok { records := none })) =
      { status := 500,
        body := .err "伺服器錯誤" "無法取得天氣資料，請稍後再試" } :=
  ⟨by decide, location_empty_or_absent "k" "臺北市" "d" (by decide)⟩

/-- C7 counterexample: an upstream 503 whose error body carries the
empty-string `message` is not forwarded verbatim — JavaScript `||`
replaces the falsy empty string with the fallback message. -/
theorem upstream_error_counterexample :
    (getWeatherByCity (some "k") "臺北市"
      (.httpError 503 { message := some "", rest := "raw" })) =
      { status := 503,
        body := .errDetails "CWA API 錯誤" ("無法取得 " ++ "臺北市" ++ " 天氣資料")
          { message := some "", rest := "raw" } } ∧
    ("無法取得 " ++ "臺北市" ++ " 天氣資料") ≠ "" :=
  ⟨rfl, by decide⟩

/-- C7 amended: on an upstream non-2xx response the proxy mirrors the
upstream status and forwards the raw error body verbatim as `details`; the
client-facing `message` is the upstream-supplied one when it is present and
non-empty, and the fallback `無法取得 <city> 天氣資料` otherwise. -/
theorem upstream_http_error_mirrored (key cityName : String)
    (hk : key ≠ "") (status : Nat) (data : ErrorData) :
    getWeatherByCity (some key) cityName (.httpError status data) =
      { status := status,
        body := .errDetails "CWA API 錯誤"
          (jsOrElse data.message ("無法取得 " ++ cityName ++ " 天氣資料"))
          data } ∧
    ∀ m, data.message = some m → m ≠ "" →
      jsOrElse data.message ("無法取得 " ++ cityName ++ " 天氣資料") = m := by
  have hkm : keyMissing (some key) = false := by simp [keyMissing, hk]
  constructor
  · simp [getWeatherByCity, hkm]
  · intro m hm hne
    simp [jsOrElse, hm, hne]

/-- Witness for the amended C7: an upstream 503 with a non-empty message. -/
theorem upstream_http_error_mirrored_witness :
    ("k" : String) ≠ "" ∧
    (getWeatherByCity (some "k") "臺北市"
        (.httpError 503 { message := some "busy", rest := "raw" }) =
      { status := 503,
        body := .errDetails "CWA API 錯誤"
          (jsOrElse (some "busy") ("無法取得 " ++ "臺北市" ++ " 天氣資料"))
          { message := some "busy", rest := "raw" } } ∧
    ∀ m, (some "busy" : Option String) = some m → m ≠ "" →
      jsOrElse (some "busy") ("無法取得 " ++ "臺北市" ++ " 天氣資料") = m) :=
  ⟨by decide,
    upstream_http_error_mirrored "k" "臺北市" (by decide) 503
      { message := some "busy", rest := "raw" }⟩

/-- C8: every transport-level failure (no upstream response) yields the
fixed 500 body, which is one constant independent of the internal
exception text, so that text cannot appear in the client response by
construction. -/
theorem transport_failure_generic_500 (key cityName : String)
    (hk : key ≠ "") (m m' : String) :
    getWeatherByCity (some key) cityName (.transportError m) =
      { status := 500,
        body := .err "伺服器錯誤" "無法取得天氣資料，請稍後再試" } ∧
    getWeatherByCity (some key) cityName (.transportError m) =
      getWeatherByCity (some key) cityName (.transportError m') := by
  have hkm : keyMissing (some key) = false := by simp [keyMissing, hk]
  constructor <;> simp [getWeatherByCity, hkm]

/-- Witness for C8 at concrete inputs. -/
theorem transport_failure_generic_500_witness :
    ("k" : String) ≠ "" ∧
    (getWeatherByCity (some "k") "臺北市"
        (.transportError "ECONNREFUSED 1.2.3.4") =
      { status := 500,
        body := .err "伺服器錯誤" "無法取得天氣資料，請稍後再試" } ∧
    getWeatherByCity (some "k") "臺北市"
        (.transportError "ECONNREFUSED 1.2.3.4") =
      getWeatherByCity (some "k") "臺北市" (.transportError "ETIMEDOUT")) :=
  ⟨by decide,
    transport_failure_generic_500 "k" "臺北市" (by decide)
      "ECONNREFUSED 1.2.3.4" "ETIMEDOUT"⟩

/-- C9: with the API key absent or empty, every request whose slug
resolves in the table answers 500 with the operator-facing message, and
the response is independent of the upstream outcome (the key check
precedes the upstream call). -/
theorem missing_key_config_error (key : Option String)
    (slug cityName : String) (u u' : UpstreamResult)
    (hk : keyMissing key = true)
    (hs : CWA_CITY_MAP (toLowerSlug slug) = some cityName) :
    handleWeatherRoute key slug u =
      { status := 500,
        body := .err "伺服器設定錯誤" "請在 .env 檔案中設定 CWA_API_KEY" } ∧
    handleWeatherRoute key slug u = handleWeatherRoute key slug u' := by
  simp [handleWeatherRoute, hs, getWeatherByCity, hk]

/-- Witness for C9: unset key, valid slug `taipei`. -/
theorem missing_key_config_error_witness :
    keyMissing none = true ∧
    CWA_CITY_MAP (toLowerSlug "taipei") = some "臺北市" ∧
    (handleWeatherRoute none "taipei" (.ok mockTaipeiBody) =
      { status := 500,
        body := .err "伺服器設定錯誤" "請在 .env 檔案中設定 CWA_API_KEY" } ∧
    handleWeatherRoute none "taipei" (.ok mockTaipeiBody) =
      handleWeatherRoute none "taipei" (.transportError "x")) :=
  ⟨rfl, by decide,
    missing_key_config_error none "taipei" "臺北市" (.ok mockTaipeiBody)
      (.transportError "x") rfl (by decide)⟩

/-- Projection of the output field targeted by an element code (the six
codes of the switch; any other code targets nothing). -/
def fieldOf (c : String) (f : Forecast) : String :=
  match c with
  | "Wx" => f.weather
  | "PoP" => f.rain
  | "MinT" => f.minTemp
  | "MaxT" => f.maxTemp
  | "CI" => f.comfort
  | "WS" => f.windSpeed
  | _ => ""

/-- The value the switch writes for an element code, including the
unit-dependent suffix for `PoP`/`MinT`/`MaxT`. -/
def writtenValue (c : String) (p : Parameter) : String :=
  match c with
  | "PoP" => p.parameterName ++
      (if p.parameterUnit = some "百分比" then "%" else "")
  | "MinT" => p.parameterName ++
      (if p.parameterUnit = some "C" then "°" else "")
  | "MaxT" => p.parameterName ++
      (if p.parameterUnit = some "C" then "°" else "")
  | _ => p.parameterName

/-- An element whose code differs from `c` leaves the field targeted by
`c` unchanged. -/
theorem applyElement_preserves (c : String)
    (hc : c ∈ ["Wx", "PoP", "MinT", "MaxT", "CI", "WS"])
    (f f' : Forecast) (e : WeatherElement) (i : Nat)
    (hne : e.elementName ≠ c)
    (happ : applyElement f e i = .ok f') :
    fieldOf c f' = fieldOf c f := by
  simp only [applyElement] at happ
  split at happ
  · exact Except.noConfusion happ
  · split at happ <;> simp only [Except.ok.injEq] at happ <;> subst happ <;>
      fin_cases hc <;> simp_all [fieldOf]

/-- A run of the `forEach` over elements none of which carries code `c`
leaves the field targeted by `c` unchanged. -/
theorem applyElements_preserves (c : String)
    (hc : c ∈ ["Wx", "PoP", "MinT", "MaxT", "CI", "WS"])
    (es : List WeatherElement) (i : Nat) (f f' : Forecast)
    (hne : ∀ e ∈ es, e.elementName ≠ c)
    (happ : applyElements es i f = .ok f') :
    fieldOf c f' = fieldOf c f := by
  induction es generalizing f with
  | nil =>
    simp only [applyElements, Except.ok.injEq] at happ
    rw [happ]
  | cons e rest ih =>
    simp only [applyElements] at happ
    cases he : applyElement f e i with
    | error err =>
      rw [he, bindErr] at happ
      exact Except.noConfusion happ
    | ok g =>
      rw [he, bindOk] at happ
      rw [ih g (fun x hx => hne x (by simp [hx])) happ]
      exact applyElement_preserves c hc f g e i (hne e (by simp)) he

/-- Splitting a `forEach` run at a list append. -/
theorem applyElements_append (xs ys : List WeatherElement) (i : Nat)
    (f f' : Forecast)
    (h : applyElements (xs ++ ys) i f = .ok f') :
    ∃ g, applyElements xs i f = .ok g ∧ applyElements ys i g = .ok f' := by
  induction xs generalizing f with
  | nil => exact ⟨f, rfl, h⟩
  | cons e rest ih =>
    simp only [List.cons_append, applyElements] at h ⊢
    cases he : applyElement f e i with
    | error err =>
      rw [he, bindErr] at h
      exact Except.noConfusion h
    | ok g =>
      rw [he, bindOk] at h
      obtain ⟨g', hg', hys⟩ := ih g h
      exact ⟨g', by rw [bindOk]; exact hg', hys⟩

/-- Processing an element of code `c` sets the targeted field to the value
composed from its `i`-th parameter. -/
theorem applyElement_writes (c : String)
    (hc : c ∈ ["Wx", "PoP", "MinT", "MaxT", "CI", "WS"])
    (f f' : Forecast) (e : WeatherElement) (i : Nat) (entry : TimeEntry)
    (hget : e.time.get? i = some entry) (hname : e.elementName = c)
    (happ : applyElement f e i = .ok f') :
    fieldOf c f' = writtenValue c entry.parameter := by
  simp only [applyElement, hget] at happ
  fin_cases hc <;> simp_all [fieldOf, writtenValue] <;> subst happ <;> rfl

/-- C10 (implicit): when several elements carry the same code, the output
field takes its value from the last such element in upstream array order —
later duplicates overwrite earlier ones, at every slot index.  Stated for
a `forEach` run over `pre ++ el :: post` where `el` is the last element of
code `c`. -/
theorem duplicate_element_last_wins (c : String)
    (hc : c ∈ ["Wx", "PoP", "MinT", "MaxT", "CI", "WS"])
    (pre post : List WeatherElement) (el : WeatherElement) (i : Nat)
    (f f' : Forecast) (entry : TimeEntry)
    (hget : el.time.get? i = some entry) (hname : el.elementName = c)
    (hpost : ∀ e ∈ post, e.elementName ≠ c)
    (happ : applyElements (pre ++ el :: post) i f = .ok f') :
    fieldOf c f' = writtenValue c entry.parameter := by
  obtain ⟨g, _, hrest⟩ := applyElements_append pre (el :: post) i f f' happ
  simp only [applyElements] at hrest
  cases he : applyElement g el i with
  | error err =>
    rw [he, bindErr] at hrest
    exact Except.noConfusion hrest
  | ok g' =>
    rw [he, bindOk] at hrest
    rw [applyElements_preserves c hc post i g' f' hpost hrest]
    exact applyElement_writes c hc g g' el i entry hget hname he

/-- Two duplicate `Wx` elements for the C10 witness. -/
def wxFirst : WeatherElement :=
  { elementName := "Wx",
    time := [{ startTime := "s", endTime := "e",
               parameter := { parameterName := "多雲",
                              parameterUnit := none } }] }

def wxSecondEntry : TimeEntry :=
  { startTime := "s", endTime := "e",
    parameter := { parameterName := "晴天", parameterUnit := none } }

def wxSecond : WeatherElement :=
  { elementName := "Wx", time := [wxSecondEntry] }

def dupSlot : Forecast :=
  { startTime := "s", endTime := "e", weather := "晴天", rain := "",
    minTemp := "", maxTemp := "", comfort := "", windSpeed := "" }

/-- Witness for C10: with two `Wx` elements, the slot's weather comes from
the second (later) one. -/
theorem duplicate_element_last_wins_witness :
    applyElements [wxFirst, wxSecond] 0 emptySlot = .ok dupSlot ∧
    fieldOf "Wx" dupSlot = writtenValue "Wx" wxSecondEntry.parameter ∧
    writtenValue "Wx" wxSecondEntry.parameter = "晴天" :=
  ⟨rfl,
    duplicate_element_last_wins "Wx" (by decide) [wxFirst] [] wxSecond 0
      emptySlot dupSlot wxSecondEntry rfl rfl (by simp) rfl,
    rfl⟩
